import Mathlib

/-
Verification development for the device state reconciliation logic of the
Netmind repository.  The definitions below are a shallow embedding of
src/netbox/validate_device_state.py (class DeviceValidator) and of the
orchestration part of src/netbox/monitor_devices.py (class NetworkMonitor).

Modelling conventions:
* Python dicts used as keyed stores are embedded as insertion-ordered
  association lists (List (String × _)) with an insert-or-replace-in-place
  operation, matching Python dict semantics.
* External effects (subprocess docker calls, the netmiko SSH session and the
  HTTP requests to NetBox) are abstracted into environment records whose
  fields give the outcome of each external call; the glue code around these
  calls is embedded faithfully.
* Timestamps (datetime.now) are elided: they are real-time values that no
  claim depends on.
* Machine strings are Lean Strings; the regular expressions of
  parse_interface_output are embedded as explicit character-list scanners
  computing the same match semantics on ASCII text.
-/

/-- Python str.isspace characters relevant to str.strip and the regex class
backslash-s (ASCII fragment). -/
def pyIsSpace (c : Char) : Bool :=
  c = ' ' || c = '\t' || c = '\n' || c = '\r' || c = '\x0b' || c = '\x0c'

/-- Characters of the regex word class (ASCII fragment): letters, digits and
the underscore. -/
def isWordChar (c : Char) : Bool :=
  c.isAlphanum || c = '_'

/-- Characters allowed in the captured address group of the inet regex:
digits, dot and slash. -/
def isAddrChar (c : Char) : Bool :=
  c.isDigit || c = '.' || c = '/'

/-- Python str.strip: drop leading and trailing whitespace. -/
def pyStrip (l : List Char) : List Char :=
  ((l.dropWhile pyIsSpace).reverse.dropWhile pyIsSpace).reverse

/-- Substring test, as the Python operator in: does the needle occur
contiguously in the haystack. -/
def containsSub (needle : List Char) : List Char → Bool
  | [] => needle.isEmpty
  | c :: t => needle.isPrefixOf (c :: t) || containsSub needle t

/-- Anchored match of the interface header regex of
validate_device_state.py line 217 against a (stripped) line: one or more
digits, a colon, whitespace, a captured word-character group, a colon,
whitespace, and a captured non-gt group between angle brackets.  Returns the
two captured groups (interface name, flag text). -/
def headerMatch (l : List Char) : Option (String × String) :=
  let ds := l.takeWhile Char.isDigit
  let r1 := l.dropWhile Char.isDigit
  if ds.isEmpty then none else
  match r1 with
  | ':' :: r2 =>
    let sp := r2.takeWhile pyIsSpace
    let r3 := r2.dropWhile pyIsSpace
    if sp.isEmpty then none else
    let nm := r3.takeWhile isWordChar
    let r4 := r3.dropWhile isWordChar
    if nm.isEmpty then none else
    match r4 with
    | ':' :: r5 =>
      let sp2 := r5.takeWhile pyIsSpace
      let r6 := r5.dropWhile pyIsSpace
      if sp2.isEmpty then none else
      match r6 with
      | '<' :: r7 =>
        let fl := r7.takeWhile (fun c => c ≠ '>')
        let r8 := r7.dropWhile (fun c => c ≠ '>')
        if fl.isEmpty then none else
        match r8 with
        | '>' :: _ => some (String.mk nm, String.mk fl)
        | _ => none
      | _ => none
    | _ => none
  | _ => none

/-- Unanchored search for the inet address regex of line 230 starting at the
head of the given suffix: the literal inet, one or more whitespace
characters, then the captured maximal run of address characters. -/
def inetMatchAt : List Char → Option String
  | 'i' :: 'n' :: 'e' :: 't' :: rest =>
    if (rest.takeWhile pyIsSpace).isEmpty then none
    else
      let r2 := rest.dropWhile pyIsSpace
      let addr := r2.takeWhile isAddrChar
      if addr.isEmpty then none else some (String.mk addr)
  | _ => none

/-- Leftmost match of the inet address regex in a line (re.search). -/
def inetSearch : List Char → Option String
  | [] => none
  | c :: t =>
    match inetMatchAt (c :: t) with
    | some a => some a
    | none => inetSearch t

/-- One interface record of the parsed interface table
(validate_device_state.py lines 222-226). -/
structure Interface where
  name : String
  status : String
  addresses : List String
deriving DecidableEq

/-- Lookup in an insertion-ordered dict embedded as an association list. -/
def dictLookup {α : Type} : List (String × α) → String → Option α
  | [], _ => none
  | (k1, v) :: rest, k => if k1 = k then some v else dictLookup rest k

/-- Insert-or-replace in a Python dict: an existing key keeps its position,
a new key is appended at the end. -/
def dictInsert {α : Type} : List (String × α) → String → α → List (String × α)
  | [], k, v => [(k, v)]
  | (k1, v1) :: rest, k, v =>
    if k1 = k then (k, v) :: rest else (k1, v1) :: dictInsert rest k v

/-- Append an address to the address list of the interface stored under the
given key (line 233); a no-op if the key is absent (which the scanner never
produces, since the current interface is always present in the table). -/
def dictAppendAddr : List (String × Interface) → String → String → List (String × Interface)
  | [], _, _ => []
  | (k1, itf) :: rest, k, addr =>
    if k1 = k then (k1, { itf with addresses := itf.addresses ++ [addr] }) :: rest
    else (k1, itf) :: dictAppendAddr rest k addr

/-- State of the line scanner of parse_interface_output: the interface table
built so far and the name of the current interface, if any. -/
structure ParseState where
  interfaces : List (String × Interface)
  current : Option String
deriving DecidableEq

/-- Python str.split on the newline character: an empty input gives one
empty line, and every newline opens a new line. -/
def pySplitNl : List Char → List (List Char)
  | [] => [[]]
  | c :: t =>
    let r := pySplitNl t
    if c = '\n' then [] :: r
    else
      match r with
      | h :: t2 => (c :: h) :: t2
      | [] => [[c]]

/-- First half of the loop body (lines 217-226): if the stripped line matches
the interface header pattern, open a new interface record whose status is UP
iff the flag text contains the substring UP, and make it current. -/
def applyHeader (st : ParseState) (line : List Char) : ParseState :=
  match headerMatch (pyStrip line) with
  | some (nm, fl) =>
    { interfaces :=
        dictInsert st.interfaces nm
          { name := nm
            status := if containsSub ['U', 'P'] fl.data then "UP" else "DOWN"
            addresses := [] }
      current := some nm }
  | none => st

/-- Second half of the loop body (lines 229-233): if some interface is
current and the line contains the literal inet followed by a space, search
the line for the inet address regex and append the captured address to the
current interface. -/
def applyInet (st : ParseState) (line : List Char) : ParseState :=
  match st.current with
  | none => st
  | some cur =>
    if containsSub ("inet ".data) line then
      match inetSearch line with
      | some addr => { st with interfaces := dictAppendAddr st.interfaces cur addr }
      | none => st
    else st

/-- One iteration of the line loop of parse_interface_output. -/
def parseStep (st : ParseState) (line : List Char) : ParseState :=
  applyInet (applyHeader st line) line

/-- DeviceValidator.parse_interface_output (lines 210-235): split the raw
command output on newlines and scan the lines. -/
def parse_interface_output (output : String) : List (String × Interface) :=
  ((pySplitNl output.data).foldl parseStep { interfaces := [], current := none }).interfaces

/-- Connection outcome of an ActualState: the connection_status values
produced by the collectors are exactly Connected and Failed. -/
inductive ConnStatus where
  | Connected
  | Failed
deriving DecidableEq

/-- Aggregate status of a ValidationResult (the strings Passed, Failed and
Unreachable of compare_device_state). -/
inductive VStatus where
  | Passed
  | Failed
  | Unreachable
deriving DecidableEq

/-- The actual-state dict built by the collectors (lines 186-195, 202-208 and
262-271).  Keys that are present only in some of the dicts are Options;
device_name, connection_status and connection_method are present in every
collector output.  The collected_at timestamp is elided. -/
structure ActualState where
  device_name : String
  connection_status : ConnStatus
  connection_method : String
  bgp_asn : Option String
  bgp_router_id : Option String
  loopback_ip : Option String
  interfaces : Option (List (String × Interface))
  error : Option String
deriving DecidableEq

/-- The intended-state dict extracted from a NetBox device record
(lines 111-118). -/
structure IntendedState where
  device_name : String
  bgp_asn : String
  loopback_ip : String
  ospf_router_id : String
  ospf_area : String
  primary_ip : String
deriving DecidableEq

/-- One per-check record of a ValidationResult.  The loopback check carries
an interface record as details (an absent loopback is recorded with empty
details, embedded as none); the connectivity check carries the transport
method instead. -/
structure Check where
  status : String
  details : Option Interface
  method : Option String
deriving DecidableEq

/-- The comparison result dict of compare_device_state (lines 283-291 and
313-322).  The unreachable branch carries an error and no intended or actual
state; the connected branch carries both and no error.  The validated_at
timestamp is elided. -/
structure ValidationResult where
  device : String
  status : VStatus
  connection_status : ConnStatus
  connection_method : String
  error : Option String
  checks : List (String × Check)
  intended_state : Option IntendedState
  actual_state : Option ActualState
deriving DecidableEq

/-- One entry of DeviceValidator.device_mapping (lines 54-58 and 62-66).
The expected_bgp_asn key is never written by get_container_mappings; it is
modelled as an optional field read with a default at line 177. -/
structure DeviceInfo where
  container : String
  ip : String
  connection_type : String
  expected_bgp_asn : Option String
deriving DecidableEq

/-- The connection parameter dict of get_device_connection_params
(lines 132-149). -/
structure ConnectionParams where
  device_type : String
  host : String
  username : String
  password : String
  timeout : Nat
  session_timeout : Nat
deriving DecidableEq

/-- Outcome of one subprocess.run docker exec call (lines 154-156): either
the process exits with a code plus captured stdout and stderr, or the call
raises (timeout or other exception). -/
inductive ExecOutcome where
  | exited (code : Nat) (stdout : String) (stderr : String)
  | exn (msg : String)

/-- Outcome of an SSH session (ConnectHandler plus send_command,
lines 249-251): success with the output of the diagnostic command, or a
transport-level exception (auth, timeout, refused). -/
inductive SshOutcome where
  | ok (output : String)
  | failed (err : String)
deriving DecidableEq

/-- The primary_ip4 sub-record of a NetBox device (line 117); the address
key may be absent. -/
structure PrimaryIp where
  address : Option String
deriving DecidableEq

/-- A device record as returned by the NetBox device query (the fields read
at lines 108-117).  custom_fields is a dict, modelled as an association
list. -/
structure NetboxDevice where
  name : String
  custom_fields : List (String × String)
  primary_ip4 : Option PrimaryIp
deriving DecidableEq

/-- Outcome of the by-name NetBox device query (lines 97-103): an exception
(connection error, HTTP error status, bad JSON) or a decoded results
list. -/
inductive QueryResult where
  | err (msg : String)
  | ok (devs : List NetboxDevice)
deriving DecidableEq

/-- Environment of a DeviceValidator run: the device mapping computed in the
constructor, and the outcome of each external call (docker exec, SSH session,
NetBox queries).  The functions model the external collaborators at the
boundary described by the spec; the surrounding glue code is embedded
below. -/
structure ValEnv where
  mapping : List (String × DeviceInfo)
  dockerExec : String → String → ExecOutcome
  ssh : ConnectionParams → SshOutcome
  netboxQuery : String → QueryResult
  netboxDevices : List NetboxDevice

/-- DeviceValidator.execute_docker_command (lines 151-161): stdout on exit
code zero, stderr on a non-zero exit, and the stringified exception prefixed
with Error: when subprocess.run raises. -/
def execute_docker_command (env : ValEnv) (container_name command : String) : String :=
  match env.dockerExec container_name command with
  | ExecOutcome.exited code out errout => if code = 0 then out else errout
  | ExecOutcome.exn m => "Error: " ++ m

/-- The intended-state extraction of get_netbox_device_state
(lines 111-118): custom fields read with dict.get defaults (Unknown for
bgp_asn, loopback_ip and ospf_router_id, the string 0 for ospf_area), and
primary_ip read from primary_ip4 when present. -/
def intendedOf (d : NetboxDevice) : IntendedState :=
  { device_name := d.name
    bgp_asn := (dictLookup d.custom_fields "bgp_asn").getD "Unknown"
    loopback_ip := (dictLookup d.custom_fields "loopback_ip").getD "Unknown"
    ospf_router_id := (dictLookup d.custom_fields "ospf_router_id").getD "Unknown"
    ospf_area := (dictLookup d.custom_fields "ospf_area").getD "0"
    primary_ip :=
      match d.primary_ip4 with
      | some p => p.address.getD "Unknown"
      | none => "Unknown" }

/-- DeviceValidator.get_netbox_device_state (lines 94-124): none on a query
exception or when the results list is empty, otherwise the intended state of
the first result. -/
def get_netbox_device_state (env : ValEnv) (device_name : String) : Option IntendedState :=
  match env.netboxQuery device_name with
  | QueryResult.err _ => none
  | QueryResult.ok [] => none
  | QueryResult.ok (d :: _) => some (intendedOf d)

/-- DeviceValidator.get_device_connection_params (lines 126-149). -/
def get_device_connection_params (env : ValEnv) (device_name : String) : Option ConnectionParams :=
  match dictLookup env.mapping device_name with
  | none => none
  | some info =>
    if info.connection_type = "ssh" then
      some { device_type := "linux", host := info.ip, username := "root"
             password := "cisco123", timeout := 20, session_timeout := 60 }
    else
      some { device_type := "linux", host := info.container, username := "root"
             password := "cisco123", timeout := 20, session_timeout := 60 }

/-- DeviceValidator.get_device_actual_state_docker (lines 163-208).  The
function always returns the Connected state built in the try block: the only
external call, execute_docker_command, catches its own exceptions and returns
a string, and the parsing and field extraction that follow are total, so the
except branch at lines 200-208 (which would build a Failed state) is
unreachable. -/
def get_device_actual_state_docker (env : ValEnv) (info : DeviceInfo) (device_name : String) : ActualState :=
  let interfaces_output := execute_docker_command env info.container "ip addr show"
  let interfaces := parse_interface_output interfaces_output
  let bgp_asn := info.expected_bgp_asn.getD "Unknown"
  let loopback_ip :=
    match dictLookup interfaces "lo" with
    | some lo =>
      match lo.addresses with
      | a :: _ => a
      | [] => "Unknown"
    | none => "Unknown"
  { device_name := device_name
    connection_status := ConnStatus.Connected
    connection_method := "docker_exec"
    bgp_asn := some bgp_asn
    bgp_router_id := some "Unknown"
    loopback_ip := some loopback_ip
    interfaces := some interfaces
    error := none }

/-- DeviceValidator.get_device_actual_state (lines 237-279): the docker exec
path when the mapping says docker_exec, otherwise the SSH session with
fallback to the docker exec path on any transport exception.  A missing
mapping entry makes the Python code raise (device_info.get on None); that
uncaught exception is modelled as none. -/
def get_device_actual_state (env : ValEnv) (device_name : String) (params : ConnectionParams) : Option ActualState :=
  match dictLookup env.mapping device_name with
  | none => none
  | some info =>
    if info.connection_type = "docker_exec" then
      some (get_device_actual_state_docker env info device_name)
    else
      match env.ssh params with
      | SshOutcome.failed _ => some (get_device_actual_state_docker env info device_name)
      | SshOutcome.ok output =>
        let interfaces := parse_interface_output output
        let loopback_ip :=
          match dictLookup interfaces "lo" with
          | some lo =>
            match lo.addresses with
            | a :: _ => a
            | [] => "Unknown"
          | none => "Unknown"
        some { device_name := device_name
               connection_status := ConnStatus.Connected
               connection_method := "ssh"
               bgp_asn := some "Unknown"
               bgp_router_id := some "Unknown"
               loopback_ip := some loopback_ip
               interfaces := some interfaces
               error := none }

/-- DeviceValidator.compare_device_state (lines 281-322).  The unreachable
branch returns immediately with empty checks.  In the connected branch the
aggregate status starts as Passed and is set to Failed only in the Down
branch of the loopback check; the Not Found branch at line 305 leaves it as
Passed (the source omits the overall_status assignment there). -/
def compare_device_state (device_name : String) (intended : IntendedState) (actual : ActualState) : ValidationResult :=
  if actual.connection_status ≠ ConnStatus.Connected then
    { device := device_name
      status := VStatus.Unreachable
      connection_status := actual.connection_status
      connection_method := actual.connection_method
      error := some (actual.error.getD "Unknown error")
      checks := []
      intended_state := none
      actual_state := none }
  else
    let ifs := actual.interfaces.getD []
    let loCheck : Check × VStatus :=
      match dictLookup ifs "lo" with
      | some lo =>
        if lo.status = "UP" then
          ({ status := "Up", details := some lo, method := none }, VStatus.Passed)
        else
          ({ status := "Down", details := some lo, method := none }, VStatus.Failed)
      | none =>
        ({ status := "Not Found", details := none, method := none }, VStatus.Passed)
    { device := device_name
      status := loCheck.2
      connection_status := ConnStatus.Connected
      connection_method := actual.connection_method
      error := none
      checks := [("loopback_interface", loCheck.1),
                 ("connectivity",
                  { status := "Connected", details := none, method := some actual.connection_method })]
      intended_state := some intended
      actual_state := some actual }

/-- DeviceValidator.validate_device (lines 324-350) as a transformer of the
shared results dict: returns the updated store and the value returned to the
caller.  A missing intended state or a missing mapping entry returns None
without storing; an exception out of get_device_actual_state likewise leaves
the store untouched (the orchestrator catches it). -/
def validate_device (env : ValEnv) (store : List (String × ValidationResult)) (device_name : String) :
    List (String × ValidationResult) × Option ValidationResult :=
  match get_netbox_device_state env device_name with
  | none => (store, none)
  | some intended =>
    match get_device_connection_params env device_name with
    | none => (store, none)
    | some params =>
      match get_device_actual_state env device_name params with
      | none => (store, none)
      | some actual =>
        let r := compare_device_state device_name intended actual
        (dictInsert store device_name r, some r)

/-- DeviceValidator.validate_all_devices (lines 352-384): the device names
are the NetBox device names containing Router-, and each device is validated
by a pool worker that writes its result into the shared dict under a lock.
Because every worker writes only its own key, the final store does not depend
on the completion order and the pool is embedded as a left fold.  No
infrastructure entry is ever written by this orchestrator. -/
def validate_all_devices (env : ValEnv) : List (String × ValidationResult) :=
  let device_names :=
    (env.netboxDevices.map NetboxDevice.name).filter
      (fun n => containsSub ("Router-".data) n.data)
  if device_names.isEmpty then []
  else device_names.foldl (fun st n => (validate_device env st n).1) []

/-- A probe outcome record of monitor_devices.py, reduced to its status and
a detail string.  The probes themselves (docker_container_check,
docker_exec_test, ping_container_ip, netbox_api_check and the docker system
check) are subprocess and HTTP boundary calls; their outcomes are supplied by
the environment below. -/
structure CheckRec where
  status : String
  details : String
deriving DecidableEq

/-- One entry of NetworkMonitor.results: a per-device record (lines 267-313)
or the infrastructure record (lines 329-369).  Fields absent from one of the
two shapes are Options; the monitored_at timestamp is elided. -/
structure MonitorEntry where
  device : Option String
  container : Option String
  checks : List (String × CheckRec)
  overall_status : String
  container_ip : Option String
deriving DecidableEq

/-- Environment of a NetworkMonitor run: outcomes of the boundary probes of
monitor_devices.py. -/
structure MonEnv where
  containerCheck : String → CheckRec
  execTest : String → CheckRec
  getContainerIp : String → Option String
  pingCheck : String → CheckRec
  netboxApiCheck : CheckRec
  dockerSystemCheck : CheckRec

/-- NetworkMonitor.monitor_device (lines 252-323) as a store transformer:
container status check, docker exec test when the container runs, ping when
the container runs and has an address, overall up iff the container runs and
the exec test succeeds; the record is stored under the device name.  An
unmapped device name returns without storing (lines 257-262). -/
def monitor_device (env : MonEnv) (mapping : List (String × String))
    (store : List (String × MonitorEntry)) (device_name : String) :
    List (String × MonitorEntry) :=
  match dictLookup mapping device_name with
  | none => store
  | some container =>
    let containerCheck := env.containerCheck container
    let execCheck :=
      if containerCheck.status = "running" then env.execTest container
      else { status := "skipped", details := "Container not running" }
    let pingAndIp : CheckRec × Option String :=
      if containerCheck.status = "running" then
        match env.getContainerIp container with
        | some ip => (env.pingCheck ip, some ip)
        | none => ({ status := "no_ip", details := "Container has no IP address" }, none)
      else ({ status := "skipped", details := "Container not running" }, none)
    let device_up := containerCheck.status = "running" ∧ execCheck.status = "success"
    dictInsert store device_name
      { device := some device_name
        container := some container
        checks := [("container", containerCheck), ("docker_exec", execCheck), ("ping", pingAndIp.1)]
        overall_status := if device_up then "up" else "down"
        container_ip := pingAndIp.2 }

/-- NetworkMonitor.monitor_infrastructure (lines 325-377): the NetBox API
check and the docker system check, with an overall verdict of up iff both are
up, stored under the reserved infrastructure key. -/
def monitor_infrastructure (env : MonEnv) (store : List (String × MonitorEntry)) :
    List (String × MonitorEntry) :=
  let netbox_check := env.netboxApiCheck
  let docker_check := env.dockerSystemCheck
  let infra_up := netbox_check.status = "up" ∧ docker_check.status = "up"
  dictInsert store "infrastructure"
    { device := none
      container := none
      checks := [("netbox_api", netbox_check), ("docker_system", docker_check)]
      overall_status := if infra_up then "up" else "down"
      container_ip := none }

/-- NetworkMonitor.monitor_all (lines 379-401): the infrastructure check
first, then one pool worker per mapping key, each writing its own key under a
lock; as every worker writes a distinct key the final store does not depend
on completion order, and the pool is embedded as a left fold over the
mapping keys. -/
def monitor_all (env : MonEnv) (mapping : List (String × String)) :
    List (String × MonitorEntry) :=
  let device_names := mapping.map Prod.fst
  let store := monitor_infrastructure env []
  device_names.foldl (fun st n => monitor_device env mapping st n) store

/-- Looking a key up right after inserting it finds the inserted value. -/
theorem dictLookup_dictInsert_self {α : Type} (s : List (String × α)) (k : String) (v : α) :
    dictLookup (dictInsert s k v) k = some v := by
  induction s with
  | nil => simp [dictInsert, dictLookup]
  | cons p rest ih =>
    by_cases h : p.1 = k
    · simp [dictInsert, dictLookup, h]
    · simp [dictInsert, dictLookup, h, ih]

/-- Inserting one key leaves lookups of other keys unchanged. -/
theorem dictLookup_dictInsert_ne {α : Type} (s : List (String × α)) (k k1 : String) (v : α)
    (h : k1 ≠ k) : dictLookup (dictInsert s k v) k1 = dictLookup s k1 := by
  induction s with
  | nil =>
    simp [dictInsert, dictLookup]
    exact Ne.symm h
  | cons p rest ih =>
    by_cases hp : p.1 = k
    · simp [dictInsert, dictLookup, hp, h, Ne.symm h]
    · by_cases hp1 : p.1 = k1
      · simp [dictInsert, dictLookup, hp, hp1, h]
      · simp [dictInsert, dictLookup, hp, hp1, ih]

/-- Inserting a fresh key grows the dict by one entry. -/
theorem dictInsert_length_new {α : Type} (s : List (String × α)) (k : String) (v : α)
    (h : dictLookup s k = none) : (dictInsert s k v).length = s.length + 1 := by
  induction s with
  | nil => simp [dictInsert]
  | cons p rest ih =>
    by_cases hp : p.1 = k
    · simp [dictLookup, hp] at h
    · simp [dictLookup, hp] at h
      simp [dictInsert, hp, ih h]

/-- Appending an address rewrites the stored interface record of the given
key pointwise. -/
theorem dictLookup_dictAppendAddr_self (s : List (String × Interface)) (k addr : String) :
    dictLookup (dictAppendAddr s k addr) k =
      (dictLookup s k).map (fun itf => { itf with addresses := itf.addresses ++ [addr] }) := by
  induction s with
  | nil => simp [dictAppendAddr, dictLookup]
  | cons p rest ih =>
    by_cases hp : p.1 = k
    · simp [dictAppendAddr, dictLookup, hp]
    · simp [dictAppendAddr, dictLookup, hp, ih]

/-- Every key of an association list has a lookup value. -/
theorem dictLookup_ne_none_of_mem {α : Type} (s : List (String × α)) (k : String)
    (h : k ∈ s.map Prod.fst) : dictLookup s k ≠ none := by
  induction s with
  | nil => simp at h
  | cons p rest ih =>
    rw [List.map_cons] at h
    by_cases hp : p.1 = k
    · simp [dictLookup, hp]
    · rcases List.mem_cons.mp h with h1 | h1
      · exact absurd h1.symm hp
      · simpa [dictLookup, hp] using ih h1

/-- A connected actual state whose interface table holds only eth0 and no
loopback entry (the situation of scenario C). -/
def actualNoLo : ActualState :=
  { device_name := "Router-3"
    connection_status := ConnStatus.Connected
    connection_method := "docker_exec"
    bgp_asn := some "Unknown"
    bgp_router_id := some "Unknown"
    loopback_ip := some "Unknown"
    interfaces := some [("eth0", { name := "eth0", status := "UP", addresses := ["172.18.0.4/16"] })]
    error := none }

/-- An intended state for Router-3 as declared in the source of truth. -/
def intendedR3 : IntendedState :=
  { device_name := "Router-3"
    bgp_asn := "65003"
    loopback_ip := "3.3.3.3/32"
    ospf_router_id := "3.3.3.3"
    ospf_area := "0"
    primary_ip := "Unknown" }

/-- C1.  The claimed invariant fails on the code: for a connected actual
state with no loopback entry the comparator records the loopback_interface
check as Not Found, a non-passing check, yet the aggregate status is Passed
and not Failed, because the Not Found branch of compare_device_state omits
the overall_status assignment that the Down branch performs.  The
Unreachable half of the invariant does hold, but the Failed and Passed
biconditionals are both violated at this input. -/
theorem c1_missing_loopback_breaks_invariant :
    (compare_device_state "Router-3" intendedR3 actualNoLo).status = VStatus.Passed
    ∧ dictLookup (compare_device_state "Router-3" intendedR3 actualNoLo).checks "loopback_interface"
        = some { status := "Not Found", details := none, method := none }
    ∧ ¬ (compare_device_state "Router-3" intendedR3 actualNoLo).status = VStatus.Failed := by
  refine ⟨rfl, rfl, ?_⟩
  decide

/-- Device mapping entry for Router-3 reached over docker exec. -/
def infoR3 : DeviceInfo :=
  { container := "R3", ip := "R3", connection_type := "docker_exec", expected_bgp_asn := none }

/-- Environment of scenario C: Router-3 connects over docker exec and the
diagnostic command succeeds, but its output lists no interface named lo. -/
def envNoLo : ValEnv :=
  { mapping := [("Router-3", infoR3)]
    dockerExec := fun _ _ =>
      ExecOutcome.exited 0
        "2: eth0: <BROADCAST,MULTICAST,UP,LOWER_UP> mtu 1500\n    inet 172.18.0.4/16 scope global eth0" ""
    ssh := fun _ => SshOutcome.failed "unused"
    netboxQuery := fun _ => QueryResult.ok []
    netboxDevices := [] }

/-- C2.  Scenario C fails on the code: Router-3 connects successfully and
its interface table has no lo entry, the loopback_interface check is
recorded as Not Found as claimed, but the absence does not count as a check
failure, so the aggregate status is Passed rather than the claimed
Failed. -/
theorem c2_not_found_leaves_status_passed :
    dictLookup (compare_device_state "Router-3" intendedR3
        (get_device_actual_state_docker envNoLo infoR3 "Router-3")).checks "loopback_interface"
      = some { status := "Not Found", details := none, method := none }
    ∧ (compare_device_state "Router-3" intendedR3
        (get_device_actual_state_docker envNoLo infoR3 "Router-3")).status = VStatus.Passed
    ∧ ¬ (compare_device_state "Router-3" intendedR3
        (get_device_actual_state_docker envNoLo infoR3 "Router-3")).status = VStatus.Failed := by
  refine ⟨by decide, by decide, by decide⟩

/-- Device mapping entry for Router-2 reached over docker exec. -/
def infoR2 : DeviceInfo :=
  { container := "R2", ip := "R2", connection_type := "docker_exec", expected_bgp_asn := none }

/-- An intended state for Router-2. -/
def intendedR2 : IntendedState :=
  { device_name := "Router-2"
    bgp_asn := "65002"
    loopback_ip := "2.2.2.2/32"
    ospf_router_id := "2.2.2.2"
    ospf_area := "0"
    primary_ip := "Unknown" }

/-- Environment of scenario B: the indirect execution for Router-2 exits
with status 1 and an error message on stderr. -/
def envExitOne : ValEnv :=
  { mapping := [("Router-2", infoR2)]
    dockerExec := fun _ _ =>
      ExecOutcome.exited 1 "" "docker: Error response from daemon: connection refused"
    ssh := fun _ => SshOutcome.failed "unused"
    netboxQuery := fun _ => QueryResult.ok []
    netboxDevices := [] }

/-- C3.  Scenario B fails on the code: when the indirect execution exits with
status 1, execute_docker_command returns the stderr text as if it were
command output (line 158), so get_device_actual_state_docker builds a
Connected actual state with no error field instead of a Failed one, and the
resulting validation is Passed with a Not Found loopback check and a
non-empty check map, not Unreachable with populated error and no checks. -/
theorem c3_nonzero_exit_yields_connected_state :
    execute_docker_command envExitOne "R2" "ip addr show"
      = "docker: Error response from daemon: connection refused"
    ∧ (get_device_actual_state_docker envExitOne infoR2 "Router-2").connection_status
        = ConnStatus.Connected
    ∧ (get_device_actual_state_docker envExitOne infoR2 "Router-2").error = none
    ∧ (compare_device_state "Router-2" intendedR2
        (get_device_actual_state_docker envExitOne infoR2 "Router-2")).status = VStatus.Passed
    ∧ ¬ (compare_device_state "Router-2" intendedR2
        (get_device_actual_state_docker envExitOne infoR2 "Router-2")).checks = [] := by
  refine ⟨rfl, by decide, by decide, by decide, by decide⟩

/-- Two actual states populate the same dict keys: the three mandatory
fields always agree in presence, and each optional field is present in one
iff it is present in the other. -/
def sameShape (a b : ActualState) : Bool :=
  a.bgp_asn.isSome = b.bgp_asn.isSome
  && a.bgp_router_id.isSome = b.bgp_router_id.isSome
  && a.loopback_ip.isSome = b.loopback_ip.isSome
  && a.interfaces.isSome = b.interfaces.isSome
  && a.error.isSome = b.error.isSome

/-- C4.  If the mapping routes a device over SSH and the SSH session raises
any transport exception, get_device_actual_state falls back to the docker
exec collector for the same device instead of reporting a failure, and the
state it returns populates exactly the same fields as the state a
docker_exec-routed device obtains from a direct indirect-transport success,
with the same recorded transport method docker_exec in both. -/
theorem c4_ssh_failure_falls_back_same_shape
    (env env2 : ValEnv) (name name2 : String) (params params2 : ConnectionParams)
    (info info2 : DeviceInfo) (e : String)
    (h1 : dictLookup env.mapping name = some info)
    (h2 : info.connection_type = "ssh")
    (h3 : env.ssh params = SshOutcome.failed e)
    (h4 : dictLookup env2.mapping name2 = some info2)
    (h5 : info2.connection_type = "docker_exec") :
    get_device_actual_state env name params
      = some (get_device_actual_state_docker env info name)
    ∧ get_device_actual_state env2 name2 params2
      = some (get_device_actual_state_docker env2 info2 name2)
    ∧ sameShape (get_device_actual_state_docker env info name)
        (get_device_actual_state_docker env2 info2 name2) = true
    ∧ (get_device_actual_state_docker env info name).connection_method = "docker_exec"
    ∧ (get_device_actual_state_docker env2 info2 name2).connection_method = "docker_exec" := by
  refine ⟨?_, ?_, ?_, rfl, rfl⟩
  · simp [get_device_actual_state, h1, h2, h3]
  · simp [get_device_actual_state, h4, h5]
  · simp [sameShape, get_device_actual_state_docker]

/-- Device mapping entry for Router-1 reached over SSH. -/
def infoR1ssh : DeviceInfo :=
  { container := "R1", ip := "172.18.0.2", connection_type := "ssh", expected_bgp_asn := none }

/-- Device mapping entry for Router-1 reached over docker exec. -/
def infoR1docker : DeviceInfo :=
  { container := "R1", ip := "R1", connection_type := "docker_exec", expected_bgp_asn := none }

/-- A healthy diagnostic output with an up loopback carrying an address. -/
def sampleIpOutput : String :=
  "1: lo: <LOOPBACK,UP,LOWER_UP> mtu 65536\n    inet 127.0.0.1/8 scope host lo\n2: eth0: <BROADCAST,MULTICAST,UP,LOWER_UP> mtu 1500\n    inet 172.18.0.2/16 scope global eth0"

/-- Environment in which the SSH session to Router-1 always raises at
connect time while docker exec succeeds. -/
def envSshDown : ValEnv :=
  { mapping := [("Router-1", infoR1ssh)]
    dockerExec := fun _ _ => ExecOutcome.exited 0 sampleIpOutput ""
    ssh := fun _ => SshOutcome.failed "Authentication failed"
    netboxQuery := fun _ => QueryResult.ok []
    netboxDevices := [] }

/-- Environment in which Router-1 is routed over docker exec directly. -/
def envDockerDirect : ValEnv :=
  { mapping := [("Router-1", infoR1docker)]
    dockerExec := fun _ _ => ExecOutcome.exited 0 sampleIpOutput ""
    ssh := fun _ => SshOutcome.ok sampleIpOutput
    netboxQuery := fun _ => QueryResult.ok []
    netboxDevices := [] }

/-- The SSH connection parameters Router-1 resolves to. -/
def paramsR1 : ConnectionParams :=
  { device_type := "linux", host := "172.18.0.2", username := "root"
    password := "cisco123", timeout := 20, session_timeout := 60 }

/-- Witness for C4 at a concrete failing SSH transport and a concrete direct
docker exec environment. -/
theorem c4_witness :
    get_device_actual_state envSshDown "Router-1" paramsR1
      = some (get_device_actual_state_docker envSshDown infoR1ssh "Router-1")
    ∧ get_device_actual_state envDockerDirect "Router-1" paramsR1
      = some (get_device_actual_state_docker envDockerDirect infoR1docker "Router-1")
    ∧ sameShape (get_device_actual_state_docker envSshDown infoR1ssh "Router-1")
        (get_device_actual_state_docker envDockerDirect infoR1docker "Router-1") = true
    ∧ (get_device_actual_state_docker envSshDown infoR1ssh "Router-1").connection_method
        = "docker_exec"
    ∧ (get_device_actual_state_docker envDockerDirect infoR1docker "Router-1").connection_method
        = "docker_exec" :=
  c4_ssh_failure_falls_back_same_shape envSshDown envDockerDirect "Router-1" "Router-1"
    paramsR1 paramsR1 infoR1ssh infoR1docker "Authentication failed"
    (by decide) (by decide) rfl (by decide) (by decide)

/-- C7.  When the actual state is not Connected the comparator
short-circuits: the result is exactly the Unreachable record carrying the
transport error text (defaulting to Unknown error when none was recorded),
with an empty check map and no intended or actual state attached, and the
result does not depend on the intended state at all. -/
theorem c7_unreachable_short_circuit
    (name : String) (intended other : IntendedState) (actual : ActualState)
    (h : actual.connection_status ≠ ConnStatus.Connected) :
    compare_device_state name intended actual =
      { device := name
        status := VStatus.Unreachable
        connection_status := actual.connection_status
        connection_method := actual.connection_method
        error := some (actual.error.getD "Unknown error")
        checks := []
        intended_state := none
        actual_state := none }
    ∧ compare_device_state name intended actual = compare_device_state name other actual := by
  constructor
  · simp [compare_device_state, h]
  · simp [compare_device_state, h]

/-- A failed actual state as produced by a collection failure. -/
def actualFailed : ActualState :=
  { device_name := "Router-2"
    connection_status := ConnStatus.Failed
    connection_method := "docker_exec"
    bgp_asn := none
    bgp_router_id := none
    loopback_ip := none
    interfaces := none
    error := some "Error: command timed out" }

/-- Witness for C7 at a concrete failed actual state and two different
intended states. -/
theorem c7_witness :
    compare_device_state "Router-2" intendedR2 actualFailed =
      { device := "Router-2"
        status := VStatus.Unreachable
        connection_status := ConnStatus.Failed
        connection_method := "docker_exec"
        error := some "Error: command timed out"
        checks := []
        intended_state := none
        actual_state := none }
    ∧ compare_device_state "Router-2" intendedR2 actualFailed
        = compare_device_state "Router-2" intendedR3 actualFailed :=
  c7_unreachable_short_circuit "Router-2" intendedR2 intendedR3 actualFailed (by decide)

/-- C10.  The aggregate status and the per-check map of the comparator do
not depend on the intended state: any two intended states yield the same
status and the same checks against the same actual state, the intended state
being only copied into the result record. -/
theorem c10_comparator_ignores_intended
    (name : String) (i1 i2 : IntendedState) (actual : ActualState) :
    (compare_device_state name i1 actual).status = (compare_device_state name i2 actual).status
    ∧ (compare_device_state name i1 actual).checks
        = (compare_device_state name i2 actual).checks := by
  by_cases h : actual.connection_status ≠ ConnStatus.Connected
  · simp [compare_device_state, h]
  · simp [compare_device_state, h]

/-- Device mapping entry for Router-9 reached over docker exec. -/
def infoR9 : DeviceInfo :=
  { container := "R9", ip := "R9", connection_type := "docker_exec", expected_bgp_asn := none }

/-- Environment of scenario D: the source-of-truth query for Router-9
returns zero records while the transport to the device succeeds. -/
def envNotDeclared : ValEnv :=
  { mapping := [("Router-9", infoR9)]
    dockerExec := fun _ _ => ExecOutcome.exited 0 sampleIpOutput ""
    ssh := fun _ => SshOutcome.failed "unused"
    netboxQuery := fun _ => QueryResult.ok []
    netboxDevices := [] }

/-- Counterexample to C5.  With zero matching source-of-truth records for
Router-9 and a working transport, validate_device returns no validation
result and writes nothing into the result store: the device is dropped, not
validated from the actual state with Unknown intended fields. -/
theorem c5_counterexample :
    (validate_device envNotDeclared [] "Router-9").2 = none
    ∧ dictLookup (validate_device envNotDeclared [] "Router-9").1 "Router-9" = none := by
  refine ⟨by decide, by decide⟩

/-- C5 amended.  When the source-of-truth query for a device returns zero
matching records, validate_device short-circuits before collecting any
state: it returns no result and leaves the result store untouched, dropping
the device from the report. -/
theorem c5_not_declared_device_dropped
    (env : ValEnv) (store : List (String × ValidationResult)) (name : String)
    (h : env.netboxQuery name = QueryResult.ok []) :
    validate_device env store name = (store, none) := by
  simp [validate_device, get_netbox_device_state, h]

/-- Witness for the amended C5 at the concrete scenario D environment. -/
theorem c5_witness :
    validate_device envNotDeclared [] "Router-9" = ([], none) :=
  c5_not_declared_device_dropped envNotDeclared [] "Router-9" (by decide)

/-- A NetBox device record with no declared custom fields and no primary
address. -/
def devNoFields : NetboxDevice :=
  { name := "Router-1", custom_fields := [], primary_ip4 := none }

/-- Environment in which the source of truth returns the bare Router-1
record. -/
def envBareDevice : ValEnv :=
  { mapping := []
    dockerExec := fun _ _ => ExecOutcome.exn "unused"
    ssh := fun _ => SshOutcome.failed "unused"
    netboxQuery := fun n => if n = "Router-1" then QueryResult.ok [devNoFields] else QueryResult.ok []
    netboxDevices := [] }

/-- Counterexample to C6.  For a device record with no declared custom
fields the fetcher defaults the missing area to the string 0, not to the
claimed Unknown sentinel. -/
theorem c6_counterexample :
    get_netbox_device_state envBareDevice "Router-1" = some (intendedOf devNoFields)
    ∧ (intendedOf devNoFields).ospf_area = "0"
    ∧ ¬ (intendedOf devNoFields).ospf_area = "Unknown" := by
  refine ⟨by decide, by decide, by decide⟩

/-- C6 amended.  For every device record returned by the source of truth the
fetcher maps the declared custom fields into the intended state, defaulting
a missing routing ASN, loopback address or router ID to Unknown, a missing
area to the string 0, and a missing primary address to Unknown; declared
values are copied through unchanged. -/
theorem c6_missing_fields_defaults
    (env : ValEnv) (name : String) (d : NetboxDevice) (rest : List NetboxDevice)
    (h : env.netboxQuery name = QueryResult.ok (d :: rest)) :
    get_netbox_device_state env name = some (intendedOf d)
    ∧ (intendedOf d).device_name = d.name
    ∧ (dictLookup d.custom_fields "bgp_asn" = none → (intendedOf d).bgp_asn = "Unknown")
    ∧ (dictLookup d.custom_fields "loopback_ip" = none → (intendedOf d).loopback_ip = "Unknown")
    ∧ (dictLookup d.custom_fields "ospf_router_id" = none →
        (intendedOf d).ospf_router_id = "Unknown")
    ∧ (dictLookup d.custom_fields "ospf_area" = none → (intendedOf d).ospf_area = "0")
    ∧ (d.primary_ip4 = none → (intendedOf d).primary_ip = "Unknown")
    ∧ (∀ v, dictLookup d.custom_fields "bgp_asn" = some v → (intendedOf d).bgp_asn = v)
    ∧ (∀ v, dictLookup d.custom_fields "loopback_ip" = some v → (intendedOf d).loopback_ip = v)
    ∧ (∀ v, dictLookup d.custom_fields "ospf_router_id" = some v →
        (intendedOf d).ospf_router_id = v)
    ∧ (∀ v, dictLookup d.custom_fields "ospf_area" = some v → (intendedOf d).ospf_area = v) := by
  refine ⟨by simp [get_netbox_device_state, h], rfl, ?_, ?_, ?_, ?_, ?_, ?_, ?_, ?_, ?_⟩
  · intro h1; simp [intendedOf, h1]
  · intro h1; simp [intendedOf, h1]
  · intro h1; simp [intendedOf, h1]
  · intro h1; simp [intendedOf, h1]
  · intro h1; simp [intendedOf, h1]
  · intro v h1; simp [intendedOf, h1]
  · intro v h1; simp [intendedOf, h1]
  · intro v h1; simp [intendedOf, h1]
  · intro v h1; simp [intendedOf, h1]

/-- Witness for the amended C6 at the concrete bare device record. -/
theorem c6_witness :
    get_netbox_device_state envBareDevice "Router-1" = some (intendedOf devNoFields)
    ∧ (intendedOf devNoFields).bgp_asn = "Unknown"
    ∧ (intendedOf devNoFields).ospf_area = "0"
    ∧ (intendedOf devNoFields).primary_ip = "Unknown" := by
  have h := c6_missing_fields_defaults envBareDevice "Router-1" devNoFields [] (by decide)
  exact ⟨h.1, h.2.2.1 (by decide), h.2.2.2.2.2.1 (by decide), h.2.2.2.2.2.2.1 (by decide)⟩

/-- A worker pass over a list of mapped, pairwise distinct, not yet stored
device names grows the monitor store by exactly one entry per name. -/
theorem monitor_fold_length (env : MonEnv) (mapping : List (String × String)) :
    ∀ (names : List String) (store : List (String × MonitorEntry)),
      names.Nodup →
      (∀ n ∈ names, n ∈ mapping.map Prod.fst) →
      (∀ n ∈ names, dictLookup store n = none) →
      (names.foldl (fun st n => monitor_device env mapping st n) store).length
        = store.length + names.length := by
  intro names
  induction names with
  | nil => intro store _ _ _; simp
  | cons n t ih =>
    intro store hnd hmap hst
    have hmem : n ∈ mapping.map Prod.fst := hmap n (List.mem_cons_self n t)
    obtain ⟨c, hc⟩ := Option.ne_none_iff_exists'.mp (dictLookup_ne_none_of_mem mapping n hmem)
    have hstep : ∀ s, monitor_device env mapping s n
        = dictInsert s n
            { device := some n
              container := some c
              checks := [("container", env.containerCheck c),
                         ("docker_exec",
                          if (env.containerCheck c).status = "running" then env.execTest c
                          else { status := "skipped", details := "Container not running" }),
                         ("ping",
                          (if (env.containerCheck c).status = "running" then
                             match env.getContainerIp c with
                             | some ip => (env.pingCheck ip, some ip)
                             | none =>
                               ({ status := "no_ip", details := "Container has no IP address" },
                                none)
                           else
                             ({ status := "skipped", details := "Container not running" },
                              none)).1)]
              overall_status :=
                if (env.containerCheck c).status = "running"
                    ∧ (if (env.containerCheck c).status = "running" then env.execTest c
                       else { status := "skipped", details := "Container not running" }).status
                      = "success"
                then "up" else "down"
              container_ip :=
                (if (env.containerCheck c).status = "running" then
                   match env.getContainerIp c with
                   | some ip => (env.pingCheck ip, some ip)
                   | none =>
                     ({ status := "no_ip", details := "Container has no IP address" }, none)
                 else
                   ({ status := "skipped", details := "Container not running" }, none)).2 } := by
      intro s
      simp [monitor_device, hc]
    rw [List.foldl_cons, hstep store]
    rw [ih (dictInsert store n _)
        (List.Nodup.of_cons hnd)
        (fun m hm => hmap m (List.mem_cons_of_mem n hm))
        (fun m hm => by
          have hne : m ≠ n := by
            intro heq
            exact (List.nodup_cons.mp hnd).1 (heq ▸ hm)
          rw [dictLookup_dictInsert_ne store n m _ hne]
          exact hst m (List.mem_cons_of_mem n hm))]
    rw [dictInsert_length_new store n _ (hst n (List.mem_cons_self n t))]
    simp [List.length_cons]
    omega

/-- A worker pass never touches a key that is not among the processed device
names. -/
theorem monitor_fold_preserves (env : MonEnv) (mapping : List (String × String)) :
    ∀ (names : List String) (store : List (String × MonitorEntry)) (k : String),
      k ∉ names →
      dictLookup (names.foldl (fun st n => monitor_device env mapping st n) store) k
        = dictLookup store k := by
  intro names
  induction names with
  | nil => intro store k _; rfl
  | cons n t ih =>
    intro store k hk
    rw [List.foldl_cons]
    rw [ih (monitor_device env mapping store n) k (fun h => hk (List.mem_cons_of_mem n h))]
    unfold monitor_device
    cases hc : dictLookup mapping n with
    | none => rfl
    | some c =>
      exact dictLookup_dictInsert_ne store n k _ (fun h => hk (h ▸ List.mem_cons_self n t))

/-- Every processed device name of a worker pass over mapped, pairwise
distinct names ends up present in the monitor store. -/
theorem monitor_fold_mem (env : MonEnv) (mapping : List (String × String)) :
    ∀ (names : List String) (store : List (String × MonitorEntry)) (n : String),
      n ∈ names → names.Nodup →
      (∀ m ∈ names, m ∈ mapping.map Prod.fst) →
      dictLookup (names.foldl (fun st m => monitor_device env mapping st m) store) n ≠ none := by
  intro names
  induction names with
  | nil => intro store n hn; simp at hn
  | cons m t ih =>
    intro store n hn hnd hmap
    rw [List.foldl_cons]
    rcases List.mem_cons.mp hn with h1 | h1
    · subst h1
      have hmem : n ∈ mapping.map Prod.fst := hmap n (List.mem_cons_self n t)
      obtain ⟨c, hc⟩ := Option.ne_none_iff_exists'.mp (dictLookup_ne_none_of_mem mapping n hmem)
      rw [monitor_fold_preserves env mapping t _ n (List.nodup_cons.mp hnd).1]
      unfold monitor_device
      rw [hc]
      rw [dictLookup_dictInsert_self]
      simp
    · exact ih (monitor_device env mapping store m) n h1 (List.Nodup.of_cons hnd)
        (fun x hx => hmap x (List.mem_cons_of_mem m hx))

/-- C8 counterexample environment: one declared device, Router-1, reachable
over docker exec with a healthy diagnostic output. -/
def envOneDevice : ValEnv :=
  { mapping := [("Router-1", infoR1docker)]
    dockerExec := fun _ _ => ExecOutcome.exited 0 sampleIpOutput ""
    ssh := fun _ => SshOutcome.ok sampleIpOutput
    netboxQuery := fun n =>
      if n = "Router-1" then
        QueryResult.ok [{ name := "Router-1", custom_fields := [], primary_ip4 := none }]
      else QueryResult.ok []
    netboxDevices := [{ name := "Router-1", custom_fields := [], primary_ip4 := none }] }

/-- Counterexample to C8.  After a completed run of the state validator
orchestrator over the single device set containing Router-1, the result
store carries no reserved infrastructure entry at all, so its size minus one
is zero and not the device count one. -/
theorem c8_counterexample :
    dictLookup (validate_all_devices envOneDevice) "infrastructure" = none
    ∧ (validate_all_devices envOneDevice).length = 1
    ∧ ¬ ((validate_all_devices envOneDevice).length - 1 = 1) := by
  refine ⟨by decide, by decide, by decide⟩

/-- C8 amended.  For the health monitor orchestrator the claim holds: after
a completed monitor_all run over a device mapping with pairwise distinct
names none of which is the reserved word infrastructure, the result store
holds exactly one entry per device name plus the reserved infrastructure
entry, so its size minus one equals the device count; every device name and
the infrastructure key are present.  The state validator orchestrator,
in contrast, writes no infrastructure entry (see the counterexample). -/
theorem c8_monitor_store_size (env : MonEnv) (mapping : List (String × String))
    (h1 : (mapping.map Prod.fst).Nodup)
    (h2 : "infrastructure" ∉ mapping.map Prod.fst) :
    (monitor_all env mapping).length - 1 = mapping.length
    ∧ dictLookup (monitor_all env mapping) "infrastructure" ≠ none
    ∧ ∀ n ∈ mapping.map Prod.fst, dictLookup (monitor_all env mapping) n ≠ none := by
  have hinfra : ∀ k (e : MonitorEntry), dictLookup (dictInsert [] "infrastructure" e) k
      = if "infrastructure" = k then some e else none := by
    intro k e; rfl
  constructor
  · rw [monitor_all]
    rw [monitor_fold_length env mapping (mapping.map Prod.fst) _ h1 (fun n hn => hn)
        (fun n hn => by
          rw [monitor_infrastructure]
          rw [hinfra]
          rw [if_neg (fun (h : "infrastructure" = n) => h2 (h.symm ▸ hn))])]
    simp [monitor_infrastructure, dictInsert, List.length_map]
  constructor
  · rw [monitor_all]
    rw [monitor_fold_preserves env mapping (mapping.map Prod.fst) _ "infrastructure" h2]
    rw [monitor_infrastructure, hinfra, if_pos rfl]
    simp
  · intro n hn
    rw [monitor_all]
    exact monitor_fold_mem env mapping (mapping.map Prod.fst) _ n hn h1 (fun m hm => hm)

/-- A healthy monitor environment: every container runs, accepts exec, has
an address and answers ping, and the infrastructure checks are up. -/
def envMonHealthy : MonEnv :=
  { containerCheck := fun _ => { status := "running", details := "" }
    execTest := fun _ => { status := "success", details := "Docker exec working normally" }
    getContainerIp := fun _ => some "172.18.0.2"
    pingCheck := fun _ => { status := "up", details := "" }
    netboxApiCheck := { status := "up", details := "" }
    dockerSystemCheck := { status := "up", details := "" } }

/-- The monitor device mapping of monitor_devices.py lines 34-38. -/
def monMapping : List (String × String) :=
  [("Router-1", "R1"), ("Router-2", "R2"), ("Router-3", "R3")]

/-- Witness for the amended C8 at the concrete three-device mapping. -/
theorem c8_witness :
    (monitor_all envMonHealthy monMapping).length - 1 = monMapping.length
    ∧ dictLookup (monitor_all envMonHealthy monMapping) "infrastructure" ≠ none :=
  have h := c8_monitor_store_size envMonHealthy monMapping (by decide) (by decide)
  ⟨h.1, h.2.1⟩

/-- C9.  The interface parser is the line scan described by the spec, and it
is total by construction (it returns a table for every input string, so
garbled input yields a best-effort, possibly empty, table and never an
error).  The conjuncts characterise one scanner step on an arbitrary state
and line: a line whose stripped text matches the interface header pattern
opens a new current interface record whose status is UP exactly when the
captured flag text contains the substring UP; a non-header line carrying an
inet address token while an interface is current appends the captured
address to the current interface; any other line leaves the state
unchanged. -/
theorem c9_parse_characterization (output : String) (st : ParseState) (line : List Char) :
    parse_interface_output output
      = ((pySplitNl output.data).foldl parseStep { interfaces := [], current := none }).interfaces
    ∧ (∀ nm fl, headerMatch (pyStrip line) = some (nm, fl) →
        (parseStep st line).current = some nm
        ∧ ∃ itf, dictLookup (parseStep st line).interfaces nm = some itf
            ∧ itf.name = nm
            ∧ itf.status = (if containsSub ['U', 'P'] fl.data then "UP" else "DOWN"))
    ∧ (∀ cur addr, headerMatch (pyStrip line) = none → st.current = some cur →
        containsSub ("inet ".data) line = true → inetSearch line = some addr →
        parseStep st line
          = { interfaces := dictAppendAddr st.interfaces cur addr, current := some cur })
    ∧ (headerMatch (pyStrip line) = none →
        (st.current = none ∨ containsSub ("inet ".data) line = false ∨ inetSearch line = none) →
        parseStep st line = st) := by
  refine ⟨rfl, ?_, ?_, ?_⟩
  · intro nm fl h
    have hA : applyHeader st line =
        { interfaces := dictInsert st.interfaces nm
            { name := nm
              status := if containsSub ['U', 'P'] fl.data then "UP" else "DOWN"
              addresses := [] }
          current := some nm } := by
      simp [applyHeader, h]
    unfold parseStep
    rw [hA]
    by_cases hin : containsSub ("inet ".data) line
    · cases hsr : inetSearch line with
      | some addr =>
        constructor
        · simp [applyInet, hin, hsr]
        · refine ⟨{ name := nm
                    status := if containsSub ['U', 'P'] fl.data then "UP" else "DOWN"
                    addresses := [] ++ [addr] }, ?_, rfl, rfl⟩
          simp [applyInet, hin, hsr, dictLookup_dictAppendAddr_self, dictLookup_dictInsert_self]
      | none =>
        constructor
        · simp [applyInet, hin, hsr]
        · refine ⟨{ name := nm
                    status := if containsSub ['U', 'P'] fl.data then "UP" else "DOWN"
                    addresses := [] }, ?_, rfl, rfl⟩
          simp [applyInet, hin, hsr, dictLookup_dictInsert_self]
    · constructor
      · simp [applyInet, hin]
      · refine ⟨{ name := nm
                  status := if containsSub ['U', 'P'] fl.data then "UP" else "DOWN"
                  addresses := [] }, ?_, rfl, rfl⟩
        simp [applyInet, hin, dictLookup_dictInsert_self]
  · intro cur addr h hcur hin hsr
    have hA : applyHeader st line = st := by simp [applyHeader, h]
    unfold parseStep
    rw [hA]
    simp [applyInet, hcur, hin, hsr]
  · intro h hdisj
    have hA : applyHeader st line = st := by simp [applyHeader, h]
    unfold parseStep
    rw [hA]
    rcases hdisj with h1 | h1 | h1
    · simp [applyInet, h1]
    · cases hcur : st.current with
      | none => simp [applyInet, hcur]
      | some cur => simp [applyInet, hcur, h1]
    · cases hcur : st.current with
      | none => simp [applyInet, hcur]
      | some cur => simp [applyInet, hcur, h1]

/-- Witness for C9: the scanner step at the concrete loopback header line
opens the lo interface as current. -/
theorem c9_witness :
    (parseStep { interfaces := [], current := none }
        ("1: lo: <LOOPBACK,UP,LOWER_UP> mtu 65536".data)).current = some "lo" := by
  have h := (c9_parse_characterization "" { interfaces := [], current := none }
      ("1: lo: <LOOPBACK,UP,LOWER_UP> mtu 65536".data)).2.1
    "lo" "LOOPBACK,UP,LOWER_UP" (by decide)
  exact h.1

